import Mathlib

/-!
# Verification of `refact_self_hosting/routers.py`

A shallow embedding of the request-normalization and stream-adaptation layer
of the repository, together with theorems settling the specification claims.

Modelling conventions:
* The backend (`Inference.infer`) is external; a finished backend run is a
  finite list `List (Option α)` of yielded items, `none` standing for a
  Python `None` item (the code only tests `response is None`).
* Python `str` values are Lean `String`s; `content[len(seen):]` is
  `String.drop`, `len` is `String.length` (both count characters, as Python
  slicing does).
* Python dicts used as finite maps (`post.sources`, the delta cursor dict
  `seen`) are association lists, resp. a total function `Int → String`
  (exactly the two operations `seen.get(idx, "")` / `seen[idx] = v` are
  used, so a total function with default `""` is observationally exact).
* `json.dumps` is kept abstract as a serialization parameter `dumps`; the
  adapters never inspect its output.
* `HTTPException` detail strings built with `%`-formatting are abstracted
  into a structured `RouterError` carrying the same data; the HTTP status
  code is kept exactly.
* `asyncio` cancellation is modelled by an optional countdown `cancelAt`:
  `some k` means `CancelledError` is delivered at the k-th cooperative
  suspension point of the loop (the `async for` await / `asyncio.sleep(0)`);
  the `except asyncio.CancelledError` clause of both generators catches it,
  logs, and returns, so the run ends with the chunks already yielded and the
  outcome `RunEnd.cancelledLogged` instead of a propagated error.
-/

/-- How a generator run ended: natural completion of the backend sequence,
or a caught-and-logged `asyncio.CancelledError`. -/
inductive RunEnd where
  | completed
  | cancelledLogged
deriving DecidableEq, Repr

/-- The only field of the canonical request that the plain streamer reads
(`stream = request["stream"]`, routers.py line 27). -/
structure InfRequest where
  stream : Bool
deriving DecidableEq, Repr

/-- Translation of `inference_streamer` (routers.py lines 22-43), as a function from the
finished backend item list to the list of yielded chunks plus the run
outcome. `data_str` is the mutable accumulator initialized to `""`;
`dumps` stands for `json.dumps`. -/
def inference_streamer_run (dumps : α → String) (stream : Bool) :
    String → Option Nat → List (Option α) → List String × RunEnd
  | _, some 0, _ => ([], .cancelledLogged)
  | data_str, _, [] =>
      (if stream then ["data: [DONE]" ++ "\n\n"] else [data_str], .completed)
  | data_str, c, none :: rest =>
      inference_streamer_run dumps stream data_str (c.map (· - 1)) rest
  | _, c, some response :: rest =>
      let d := dumps response
      let (tail, e) := inference_streamer_run dumps stream d (c.map (· - 1)) rest
      ((if stream then ["data: " ++ d ++ "\n\n"] else []) ++ tail, e)

/-- The chunks yielded by `inference_streamer` on a backend run that
completes normally (no cancellation). -/
def inference_streamer (dumps : α → String) (request : InfRequest)
    (responses : List (Option α)) : List String :=
  (inference_streamer_run dumps request.stream "" none responses).1

/-- One choice inside a backend snapshot, as read by `chat_delta_streamer`:
`ch["index"]` (required key) and `ch["content"]` (optional key, read with
`ch.get("content", "")`). Other keys only flow into serialization, which is
abstract here. -/
structure Choice where
  index : Int
  content : Option String
deriving DecidableEq, Repr

/-- A backend snapshot for the chat streamer: `choices` is `some _` when the
key `"choices"` is present in the response dict. -/
structure Snapshot where
  choices : Option (List Choice)
deriving DecidableEq, Repr

/-- An outgoing choice after the delta transformation: `ch["delta"]` has been
attached and `ch["content"]` deleted. -/
structure ChoiceOut where
  index : Int
  delta : String
deriving DecidableEq, Repr

/-- An outgoing (transformed) snapshot. -/
structure SnapshotOut where
  choices : Option (List ChoiceOut)
deriving DecidableEq, Repr

/-- One item yielded by `chat_delta_streamer`: a transformed snapshot
(serialized and framed on the wire) or the terminal `[DONE]` marker. -/
inductive ChatEvent where
  | snap (s : SnapshotOut)
  | done
deriving DecidableEq, Repr

/-- The inner `for ch in response["choices"]` loop of `chat_delta_streamer`
(routers.py lines 56-63): threads the `seen` dict through the choices,
computing `ch["delta"] = content[len(seen_here):]` and `seen[idx] = content`
for each choice. -/
def chat_process_choices (seen : Int → String) :
    List Choice → List ChoiceOut × (Int → String)
  | [] => ([], seen)
  | ch :: rest =>
      let seen_here := seen ch.index
      let content := ch.content.getD ""
      let delta := content.drop seen_here.length
      let seen2 : Int → String := fun i => if i = ch.index then content else seen i
      let (outs, seen3) := chat_process_choices seen2 rest
      ({ index := ch.index, delta := delta } :: outs, seen3)

/-- Translation of `chat_delta_streamer` (routers.py lines 46-69) at the event level: the
list of yielded items (before serialization/framing) and the run outcome,
with the same cancellation modelling as `inference_streamer_run`. -/
def chat_delta_streamer_run (seen : Int → String) :
    Option Nat → List (Option Snapshot) → List ChatEvent × RunEnd
  | some 0, _ => ([], .cancelledLogged)
  | _, [] => ([.done], .completed)
  | c, none :: rest => chat_delta_streamer_run seen (c.map (· - 1)) rest
  | c, some response :: rest =>
      match response.choices with
      | none =>
          let (tail, e) := chat_delta_streamer_run seen (c.map (· - 1)) rest
          (.snap { choices := none } :: tail, e)
      | some chs =>
          let (outs, seen2) := chat_process_choices seen chs
          let (tail, e) := chat_delta_streamer_run seen2 (c.map (· - 1)) rest
          (.snap { choices := some outs } :: tail, e)

/-- The events of a chat streamer run that completes normally, starting from
the empty `seen` dict (`seen: Dict[int, str] = dict()`, line 50). -/
def chat_delta_streamer_events (responses : List (Option Snapshot)) : List ChatEvent :=
  (chat_delta_streamer_run (fun _ => "") none responses).1

/-- Wire form of one yielded item: `"data: " + json.dumps(response) + "\n\n"`
for a snapshot (line 64-65), the literal terminal marker for `done`
(line 67). -/
def chat_event_chunk (dumpsOut : SnapshotOut → String) : ChatEvent → String
  | .snap s => "data: " ++ dumpsOut s ++ "\n\n"
  | .done => "data: [DONE]" ++ "\n\n"

/-- The chunks yielded by `chat_delta_streamer` on a normally-completing run. -/
def chat_delta_streamer (dumpsOut : SnapshotOut → String)
    (responses : List (Option Snapshot)) : List String :=
  (chat_delta_streamer_events responses).map (chat_event_chunk dumpsOut)

/-- Structured form of the `HTTPException`s raised in routers.py, carrying
the data that the `%`-formatted detail strings interpolate. -/
inductive RouterError where
  | invalidCursorFile (cursor_file : String) (sourceKeys : List String)
  | negativeCursor (cursor0 cursor1 : Int)
  | cursorBeyondLength (cursor0 cursor1 : Int) (fileLength : Nat)
  | modelLoading (last_error : Option String)
  | modelMismatch (requested : String) (server : String)
  | unknownModel (server : String)
  | chatUnavailable (server : String)
deriving DecidableEq, Repr

/-- The `status_code` each exception is raised with. -/
def RouterError.status : RouterError → Nat
  | .invalidCursorFile _ _ => 400
  | .negativeCursor _ _ => 400
  | .cursorBeyondLength _ _ _ => 400
  | .modelLoading _ => 401
  | .modelMismatch _ _ => 401
  | .unknownModel _ => 401
  | .chatUnavailable _ => 401

/-- Read-only backend state consumed by the routers (`Inference` attributes;
the backend itself is external). `model_dict` values are opaque, only the
dict's emptiness is ever tested. -/
structure Inference where
  model_name : Option String
  last_error : Option String
  model_dict : List (String × String)
  chat_is_available : Bool
deriving DecidableEq, Repr

/-- Python comparison of a dict with the int `0` (`self._inference.model_dict == 0`,
routers.py line 154): a dict never equals an int, so it is always `False`. -/
def pyDictEqZero (_d : List (String × String)) : Bool := false

/-- Fields of a `TextSamplingParams` post that the completion route reads in
its checks (the remaining fields flow unchanged into the canonical request
through `post.clamp()`, which lives outside this repository slice). -/
structure TextPost where
  model : String
  prompt : String
  stream : Bool
deriving DecidableEq, Repr

/-- Fields of a `DiffSamplingParams` post read by `/v1/contrast`. `sources`
is the file-name → file-text dict, as an association list. -/
structure DiffPost where
  model : String
  intent : String
  function : String
  cursor_file : String
  cursor0 : Int
  cursor1 : Int
  sources : List (String × String)
  max_edits : Nat
  max_tokens : Nat
  stream : Bool
deriving DecidableEq, Repr

/-- Fields of a `ChatSamplingParams` post read by `/v1/chat`; messages are
(role, content) pairs. -/
structure ChatPost where
  model : String
  messages : List (String × String)
deriving DecidableEq, Repr

/-- The canonical diff request fields set by `request.update` in
`ContrastRouter._contrast` (lines 197-210); `id` is a fresh uuid and the
clamped sampling controls come from the external `post.clamp()`, so neither
is modelled. -/
structure DiffRequest where
  model : String
  intent : String
  sources : List (String × String)
  cursor_file : String
  cursor0 : Int
  cursor1 : Int
  function : String
  max_edits : Nat
  stream : Bool
deriving DecidableEq, Repr

/-- Translation of `CompletionRouter._completion` (routers.py lines 129-163) up to
handing the canonical request to `inference_streamer`: the sequence of
checks, in source order, ending in the request's stream flag. Note line 154
is `if not self._inference.model_dict == 0:`, i.e. `not (model_dict == 0)`. -/
def completion_route (inference : Inference) (post : TextPost) :
    Except RouterError InfRequest :=
  let request : InfRequest := { stream := post.stream }
  match inference.model_name with
  | none => .error (.modelLoading inference.last_error)
  | some model_name =>
      if post.model != "" && post.model != "CONTRASTcode" && model_name != post.model then
        .error (.modelMismatch post.model model_name)
      else if !(pyDictEqZero inference.model_dict) then
        .error (.unknownModel model_name)
      else .ok request

/-- The mode-specific validation and normalization at the top of
`ContrastRouter._contrast` (routers.py lines 177-193): cursor-file
membership, cursor non-negativity and cursor bounds when
`function != "diff-anywhere"`; sentinel forcing otherwise. -/
def contrast_normalize (post : DiffPost) : Except RouterError DiffPost :=
  if post.function != "diff-anywhere" then
    match post.sources.lookup post.cursor_file with
    | none =>
        .error (.invalidCursorFile post.cursor_file (post.sources.map Prod.fst))
    | some filetext =>
        if post.cursor0 < 0 || post.cursor1 < 0 then
          .error (.negativeCursor post.cursor0 post.cursor1)
        else if post.cursor0 > (filetext.length : Int) || post.cursor1 > (filetext.length : Int) then
          .error (.cursorBeyondLength post.cursor0 post.cursor1 filetext.length)
        else .ok post
  else
    .ok { post with cursor0 := -1, cursor1 := -1, cursor_file := "" }

/-- Translation of `ContrastRouter._contrast` (routers.py lines 175-228) up to handing
the canonical request to `inference_streamer`: normalization, the
`highlight` max-tokens override, request construction, then the readiness
checks in source order. -/
def contrast_route (inference : Inference) (post0 : DiffPost) :
    Except RouterError DiffRequest :=
  match contrast_normalize post0 with
  | .error e => .error e
  | .ok post1 =>
  let post := if post1.function == "highlight" then { post1 with max_tokens := 1 } else post1
  let request : DiffRequest :=
    { model := post.model, intent := post.intent, sources := post.sources,
      cursor_file := post.cursor_file, cursor0 := post.cursor0,
      cursor1 := post.cursor1, function := post.function,
      max_edits := post.max_edits, stream := post.stream }
  match inference.model_name with
  | none => .error (.modelLoading inference.last_error)
  | some model_name =>
      if post.model != "" && post.model != "CONTRASTcode" && model_name != post.model then
        .error (.modelMismatch post.model model_name)
      else if inference.model_dict.isEmpty then
        .error (.unknownModel model_name)
      else .ok request

/-- Translation of `ChatRouter._chat` (routers.py lines 240-270) up to handing the
canonical request to `chat_delta_streamer`; chat streams unconditionally
(`"stream": True`). The model-mismatch check on line 260 has no
`"CONTRASTcode"` case. -/
def chat_route (inference : Inference) (post : ChatPost) :
    Except RouterError InfRequest :=
  let request : InfRequest := { stream := true }
  match inference.model_name with
  | none => .error (.modelLoading inference.last_error)
  | some model_name =>
      if !inference.chat_is_available then
        .error (.chatUnavailable model_name)
      else if post.model != "" && model_name != post.model then
        .error (.modelMismatch post.model model_name)
      else if inference.model_dict.isEmpty then
        .error (.unknownModel model_name)
      else .ok request

/-! ## Helper lemmas -/

lemma map_getD_getD (f : α → β) (o : Option α) (a : α) :
    (o.map f).getD (f a) = f (o.getD a) := by
  cases o <;> rfl

lemma getLast?_cons_eq (a : α) (l : List α) :
    (a :: l).getLast? = some (l.getLast?.getD a) := by
  induction l generalizing a with
  | nil => rfl
  | cons b t ih => rw [List.getLast?_cons_cons, ih b]; rfl

lemma inference_streamer_run_stream (dumps : α → String) (acc : String)
    (responses : List (Option α)) :
    inference_streamer_run dumps true acc none responses
      = ((responses.filterMap id).map (fun r => "data: " ++ dumps r ++ "\n\n")
          ++ ["data: [DONE]" ++ "\n\n"], .completed) := by
  induction responses generalizing acc with
  | nil => rfl
  | cons h t ih =>
      cases h with
      | none => simpa [inference_streamer_run] using ih acc
      | some r => simp [inference_streamer_run, ih (dumps r)]

lemma inference_streamer_run_nostream (dumps : α → String) (acc : String)
    (responses : List (Option α)) :
    inference_streamer_run dumps false acc none responses
      = ([((responses.filterMap id).getLast?.map dumps).getD acc], .completed) := by
  induction responses generalizing acc with
  | nil => rfl
  | cons h t ih =>
      cases h with
      | none => simpa [inference_streamer_run] using ih acc
      | some r =>
          simp only [inference_streamer_run, Option.map_none', List.nil_append,
            ih (dumps r), List.filterMap_cons, id_eq, getLast?_cons_eq,
            Option.map_some', Option.getD_some, map_getD_getD]
          simp

/-! ## Claim theorems: plain stream adapter -/

/-- C2: for every canonical request with the streaming flag true and every
backend snapshot sequence that completes normally, `inference_streamer`
emits exactly one chunk `"data: " ++ JSON(snapshot) ++ "\n\n"` per non-None
snapshot, in arrival order, followed by exactly one terminal marker chunk
`"data: [DONE]\n\n"`; None snapshots produce no chunk. -/
theorem streaming_plain_adapter_chunks (dumps : α → String) (request : InfRequest)
    (responses : List (Option α)) (h : request.stream = true) :
    inference_streamer dumps request responses
      = (responses.filterMap id).map (fun r => "data: " ++ dumps r ++ "\n\n")
        ++ ["data: [DONE]\n\n"] := by
  unfold inference_streamer
  rw [h, inference_streamer_run_stream]
  rfl

theorem streaming_plain_adapter_chunks_witness :
    inference_streamer (fun s : String => s) { stream := true } [some "A", none, some "B"]
      = ["data: A\n\n", "data: B\n\n", "data: [DONE]\n\n"] :=
  (streaming_plain_adapter_chunks (fun s : String => s) { stream := true }
    [some "A", none, some "B"] rfl).trans (by decide)

/-- C3: for every canonical request with the streaming flag false and every
normally-completing backend sequence containing at least one non-None
snapshot, `inference_streamer` emits exactly one chunk, the bare
serialization of the last non-None snapshot, with no framing prefix and no
terminal marker. -/
theorem nonstreaming_plain_adapter_last (dumps : α → String) (request : InfRequest)
    (responses : List (Option α)) (h : request.stream = false)
    (h2 : responses.filterMap id ≠ []) :
    ∃ last, (responses.filterMap id).getLast? = some last ∧
      inference_streamer dumps request responses = [dumps last] := by
  cases hl : (responses.filterMap id).getLast? with
  | none => exact absurd (List.getLast?_eq_none_iff.1 hl) h2
  | some last =>
      refine ⟨last, rfl, ?_⟩
      unfold inference_streamer
      rw [h, inference_streamer_run_nostream, hl]
      rfl

theorem nonstreaming_plain_adapter_last_witness :
    ∃ last, (([some "A", none, some "B"] : List (Option String)).filterMap id).getLast? = some last ∧
      inference_streamer (fun s : String => s) { stream := false } [some "A", none, some "B"]
        = [(fun s : String => s) last] :=
  nonstreaming_plain_adapter_last (fun s : String => s) { stream := false }
    [some "A", none, some "B"] rfl (by decide)

/-- C10: for every non-streaming request whose backend sequence completes
normally having yielded no non-None snapshot, `inference_streamer` still
emits exactly one chunk, and that chunk is the empty string. -/
theorem nonstreaming_plain_adapter_degenerate (dumps : α → String) (request : InfRequest)
    (responses : List (Option α)) (h : request.stream = false)
    (h2 : responses.filterMap id = []) :
    inference_streamer dumps request responses = [""] := by
  unfold inference_streamer
  rw [h, inference_streamer_run_nostream, h2]
  rfl

theorem nonstreaming_plain_adapter_degenerate_witness :
    inference_streamer (fun s : String => s) { stream := false } [none, none] = [""] :=
  nonstreaming_plain_adapter_degenerate (fun s : String => s) { stream := false }
    [none, none] rfl (by decide)

lemma inference_streamer_run_none_ne_nil (dumps : α → String) (stream : Bool)
    (acc : String) (responses : List (Option α)) :
    (inference_streamer_run dumps stream acc none responses).1 ≠ [] := by
  cases stream with
  | true => rw [inference_streamer_run_stream]; simp
  | false => rw [inference_streamer_run_nostream]; simp

lemma inference_streamer_run_none_completed (dumps : α → String) (stream : Bool)
    (acc : String) (responses : List (Option α)) :
    (inference_streamer_run dumps stream acc none responses).2 = .completed := by
  cases stream with
  | true => rw [inference_streamer_run_stream]
  | false => rw [inference_streamer_run_nostream]

lemma inference_streamer_run_cancel (dumps : α → String) (stream : Bool) (acc : String)
    (responses : List (Option α)) (k : Nat) (hk : k ≤ responses.length) :
    inference_streamer_run dumps stream acc (some k) responses
      = (((inference_streamer_run dumps stream acc none (responses.take k)).1).dropLast,
         .cancelledLogged) := by
  induction responses generalizing k acc with
  | nil =>
      have hk0 : k = 0 := Nat.le_zero.1 hk
      subst hk0
      cases stream <;> rfl
  | cons h t ih =>
      cases k with
      | zero => cases stream <;> cases h <;> simp [inference_streamer_run]
      | succ k =>
          cases h with
          | none =>
              simpa [inference_streamer_run] using
                ih acc k (Nat.le_of_succ_le_succ hk)
          | some r =>
              have hne := inference_streamer_run_none_ne_nil dumps stream (dumps r) (t.take k)
              simp only [inference_streamer_run, Option.map_some', Option.map_none',
                Nat.add_sub_cancel, List.take_succ_cons,
                ih (dumps r) k (Nat.le_of_succ_le_succ hk)]
              rw [List.dropLast_append_of_ne_nil _ hne]

lemma chat_delta_streamer_run_none_spec (seen : Int → String)
    (responses : List (Option Snapshot)) :
    ∃ pre, chat_delta_streamer_run seen none responses = (pre ++ [ChatEvent.done], .completed)
      ∧ ChatEvent.done ∉ pre := by
  induction responses generalizing seen with
  | nil => exact ⟨[], rfl, by simp⟩
  | cons h t ih =>
      cases h with
      | none =>
          obtain ⟨pre, h1, h2⟩ := ih seen
          exact ⟨pre, by simpa [chat_delta_streamer_run] using h1, h2⟩
      | some response =>
          cases hc : response.choices with
          | none =>
              obtain ⟨pre, h1, h2⟩ := ih seen
              refine ⟨.snap { choices := none } :: pre, ?_, ?_⟩
              · simp [chat_delta_streamer_run, hc, h1]
              · simp [h2]
          | some chs =>
              rcases hp : chat_process_choices seen chs with ⟨outs, seen2⟩
              obtain ⟨pre, h1, h2⟩ := ih seen2
              refine ⟨.snap { choices := some outs } :: pre, ?_, ?_⟩
              · simp [chat_delta_streamer_run, hc, hp, h1]
              · simp [h2]

lemma chat_delta_streamer_run_none_ne_nil (seen : Int → String)
    (responses : List (Option Snapshot)) :
    (chat_delta_streamer_run seen none responses).1 ≠ [] := by
  obtain ⟨pre, h1, -⟩ := chat_delta_streamer_run_none_spec seen responses
  simp [h1]

lemma chat_delta_streamer_run_cancel (seen : Int → String)
    (responses : List (Option Snapshot)) (k : Nat) (hk : k ≤ responses.length) :
    chat_delta_streamer_run seen (some k) responses
      = (((chat_delta_streamer_run seen none (responses.take k)).1).dropLast,
         .cancelledLogged) := by
  induction responses generalizing seen k with
  | nil =>
      have hk0 : k = 0 := Nat.le_zero.1 hk
      subst hk0
      simp [chat_delta_streamer_run]
  | cons h t ih =>
      cases k with
      | zero => simp [chat_delta_streamer_run]
      | succ k =>
          cases h with
          | none =>
              simpa [chat_delta_streamer_run] using
                ih seen k (Nat.le_of_succ_le_succ hk)
          | some response =>
              have hne := chat_delta_streamer_run_none_ne_nil
              cases hc : response.choices with
              | none =>
                  simp only [chat_delta_streamer_run, hc, Option.map_some', Option.map_none',
                    Nat.add_sub_cancel, List.take_succ_cons,
                    ih seen k (Nat.le_of_succ_le_succ hk)]
                  rw [List.dropLast_cons_of_ne_nil (hne seen (t.take k))]
              | some chs =>
                  rcases hp : chat_process_choices seen chs with ⟨outs, seen2⟩
                  simp only [chat_delta_streamer_run, hc, hp, Option.map_some', Option.map_none',
                    Nat.add_sub_cancel, List.take_succ_cons,
                    ih seen2 k (Nat.le_of_succ_le_succ hk)]
                  rw [List.dropLast_cons_of_ne_nil (hne seen2 (t.take k))]

/-! ## Claim theorems: chat delta streamer termination and cancellation -/

/-- C8: for every backend snapshot sequence that completes normally,
including sequences yielding zero snapshots or only None snapshots,
`chat_delta_streamer` emits exactly one terminal marker chunk
`"data: [DONE]\n\n"`, as its final output. -/
theorem chat_adapter_terminal_marker (dumpsOut : SnapshotOut → String)
    (responses : List (Option Snapshot)) :
    (chat_delta_streamer_events responses).getLast? = some ChatEvent.done
    ∧ (chat_delta_streamer_events responses).count ChatEvent.done = 1
    ∧ (chat_delta_streamer dumpsOut responses).getLast? = some "data: [DONE]\n\n" := by
  obtain ⟨pre, h1, h2⟩ := chat_delta_streamer_run_none_spec (fun _ => "") responses
  have he : chat_delta_streamer_events responses = pre ++ [ChatEvent.done] := by
    unfold chat_delta_streamer_events
    rw [h1]
  refine ⟨?_, ?_, ?_⟩
  · rw [he, List.getLast?_concat]
  · rw [he, List.count_append, List.count_eq_zero.2 h2]
    simp
  · unfold chat_delta_streamer
    rw [he, List.map_append]
    simp [chat_event_chunk]

/-- C9: for both stream adapters, cancellation delivered mid-iteration (at
the k-th cooperative suspension point, `k ≤` sequence length) ends the run
with exactly the chunks already emitted for the first `k` items — the
post-loop emission (in particular the terminal marker) is never reached —
and the outcome is the caught-and-logged cancellation, not a propagated
error; a natural completion, by contrast, always reaches the post-loop
emission (the output is non-empty, ending in the terminal event for the
chat adapter). -/
theorem adapters_cancellation (dumps : α → String) (request : InfRequest)
    (responses : List (Option α)) (k : Nat) (hk : k ≤ responses.length)
    (responses' : List (Option Snapshot)) (k' : Nat) (hk' : k' ≤ responses'.length) :
    inference_streamer_run dumps request.stream "" (some k) responses
      = ((inference_streamer_run dumps request.stream "" none (responses.take k)).1.dropLast,
         .cancelledLogged)
    ∧ (inference_streamer_run dumps request.stream "" none responses).2 = .completed
    ∧ (inference_streamer_run dumps request.stream "" none responses).1 ≠ []
    ∧ chat_delta_streamer_run (fun _ => "") (some k') responses'
      = ((chat_delta_streamer_events (responses'.take k')).dropLast, .cancelledLogged)
    ∧ (chat_delta_streamer_run (fun _ => "") none responses').2 = .completed
    ∧ (chat_delta_streamer_events responses').getLast? = some ChatEvent.done := by
  obtain ⟨pre, h1, h2⟩ := chat_delta_streamer_run_none_spec (fun _ => "") responses'
  refine ⟨inference_streamer_run_cancel dumps request.stream "" responses k hk,
    inference_streamer_run_none_completed dumps request.stream "" responses,
    inference_streamer_run_none_ne_nil dumps request.stream "" responses,
    chat_delta_streamer_run_cancel (fun _ => "") responses' k' hk',
    by rw [h1],
    ?_⟩
  unfold chat_delta_streamer_events
  rw [h1, List.getLast?_concat]

theorem adapters_cancellation_witness :
    inference_streamer_run (fun s : String => s) true "" (some 1) [some "A", none]
      = (["data: A\n\n"], .cancelledLogged)
    ∧ chat_delta_streamer_run (fun _ => "") (some 1)
        [some { choices := some [{ index := 0, content := some "Hi" }] }]
      = ([ChatEvent.snap { choices := some [{ index := 0, delta := "Hi" }] }],
         .cancelledLogged) := by
  have h := adapters_cancellation (fun s : String => s) { stream := true }
    [some "A", none] 1 (by decide)
    [some { choices := some [{ index := 0, content := some "Hi" }] }] 1 (by decide)
  exact ⟨h.1.trans (by decide), (h.2.2.2.1).trans (by decide)⟩

/-! ## Delta reconstruction (chat adapter) -/

/-- The cumulative `content` values (with the `ch.get("content", "")`
default) of the choices with the given index, in one snapshot's `choices`
list, in order. -/
def choiceContents (i : Int) (chs : List Choice) : List String :=
  (chs.filter (fun ch => ch.index == i)).map (fun ch => ch.content.getD "")

/-- All cumulative `content` values reported for a given choice index over a
backend sequence, in arrival order. -/
def contentsFor (i : Int) : List (Option Snapshot) → List String
  | [] => []
  | none :: rest => contentsFor i rest
  | some s :: rest =>
      (match s.choices with
       | none => []
       | some chs => choiceContents i chs) ++ contentsFor i rest

/-- The `delta` strings carried by one emitted event for a given index. -/
def eventDeltasFor (i : Int) : ChatEvent → List String
  | .snap s =>
      match s.choices with
      | none => []
      | some outs => (outs.filter (fun o => o.index == i)).map (fun o => o.delta)
  | .done => []

/-- All `delta` strings emitted by the chat delta streamer for a given
index, in emission order. -/
def emittedDeltasFor (i : Int) (responses : List (Option Snapshot)) : List String :=
  ((chat_delta_streamer_events responses).map (eventDeltasFor i)).flatten

/-- Specification-side recurrence: the suffixes the streamer should emit for
one index, given the previously observed text `prev` and the successive
cumulative contents. -/
def deltasOfContents (prev : String) : List String → List String
  | [] => []
  | c :: cs => c.drop prev.length :: deltasOfContents c cs

/-- Concatenation of a list of strings in order. -/
def strConcat : List String → String
  | [] => ""
  | s :: l => s ++ strConcat l

lemma str_append_drop (a b : String) (h : a.data <+: b.data) :
    a ++ b.drop a.length = b := by
  obtain ⟨t, ht⟩ := h
  apply String.ext
  rw [String.data_append, String.data_drop, ← ht]
  show a.data ++ (a.data ++ t).drop a.data.length = a.data ++ t
  rw [List.drop_left]

lemma deltasOfContents_append (prev : String) (l1 l2 : List String) :
    deltasOfContents prev (l1 ++ l2)
      = deltasOfContents prev l1 ++ deltasOfContents (l1.getLast?.getD prev) l2 := by
  induction l1 generalizing prev with
  | nil => rfl
  | cons c t ih =>
      simp only [List.cons_append, deltasOfContents, List.append_eq, ih c,
        getLast?_cons_eq, Option.getD_some]

lemma deltasOfContents_chain (cs : List String) (prev : String)
    (h : List.Chain' (fun a b : String => a.data <+: b.data) (prev :: cs)) :
    prev ++ strConcat (deltasOfContents prev cs) = cs.getLast?.getD prev := by
  induction cs generalizing prev with
  | nil => simp [deltasOfContents, strConcat]
  | cons c t ih =>
      rw [List.chain'_cons] at h
      rw [deltasOfContents, strConcat, getLast?_cons_eq, Option.getD_some,
        ← String.append_assoc, str_append_drop prev c h.1, ih c h.2]

lemma chat_process_choices_deltas (i : Int) (chs : List Choice) (seen : Int → String) :
    ((chat_process_choices seen chs).1.filter (fun o => o.index == i)).map (fun o => o.delta)
      = deltasOfContents (seen i) (choiceContents i chs)
    ∧ (chat_process_choices seen chs).2 i
      = (choiceContents i chs).getLast?.getD (seen i) := by
  induction chs generalizing seen with
  | nil => exact ⟨rfl, rfl⟩
  | cons ch rest ih =>
      by_cases hi : ch.index = i
      · subst hi
        obtain ⟨ih1, ih2⟩ := ih (fun j => if j = ch.index then ch.content.getD "" else seen j)
        constructor
        · simp only [chat_process_choices, choiceContents, List.filter_cons, beq_self_eq_true,
            if_true, List.map_cons, deltasOfContents]
          rw [← choiceContents]
          refine congrArg₂ _ rfl ?_
          rw [ih1]
          simp
        · simp only [chat_process_choices, choiceContents, List.filter_cons, beq_self_eq_true,
            if_true, List.map_cons, getLast?_cons_eq, Option.getD_some]
          rw [← choiceContents, ih2]
          simp
      · have hb : (ch.index == i) = false := beq_eq_false_iff_ne.2 hi
        obtain ⟨ih1, ih2⟩ := ih (fun j => if j = ch.index then ch.content.getD "" else seen j)
        constructor
        · simp only [chat_process_choices, choiceContents, List.filter_cons, hb,
            Bool.false_eq_true, if_false, List.map_cons]
          rw [← choiceContents]
          rw [ih1]
          simp [Ne.symm hi]
        · simp only [chat_process_choices, choiceContents, List.filter_cons, hb,
            Bool.false_eq_true, if_false]
          rw [← choiceContents, ih2]
          simp [Ne.symm hi]

lemma chat_run_deltas (i : Int) (responses : List (Option Snapshot)) (seen : Int → String) :
    ((chat_delta_streamer_run seen none responses).1.map (eventDeltasFor i)).flatten
      = deltasOfContents (seen i) (contentsFor i responses) := by
  induction responses generalizing seen with
  | nil => rfl
  | cons h t ih =>
      cases h with
      | none => simpa [chat_delta_streamer_run, contentsFor] using ih seen
      | some response =>
          cases hc : response.choices with
          | none =>
              simpa [chat_delta_streamer_run, hc, contentsFor, eventDeltasFor]
                using ih seen
          | some chs =>
              rcases hp : chat_process_choices seen chs with ⟨outs, seen2⟩
              have hd := chat_process_choices_deltas i chs seen
              rw [hp] at hd
              simp only at hd
              simp only [chat_delta_streamer_run, hc, hp, Option.map_none', List.map_cons,
                List.flatten_cons, contentsFor, eventDeltasFor, deltasOfContents_append,
                ih seen2, hd.1, hd.2]

/-! ## Claim theorem: delta reconstruction law -/

/-- C1: for every backend snapshot sequence in which the cumulative
`content` values for a choice index form a chain of prefixes of one
another (monotonically non-decreasing prefixes of that index's final text),
concatenating in emission order all `delta` strings emitted by
`chat_delta_streamer` for that index equals the final (last reported)
cumulative content for that index. -/
theorem chat_delta_reconstruction (i : Int) (responses : List (Option Snapshot))
    (h : List.Chain' (fun a b : String => a.data <+: b.data) (contentsFor i responses)) :
    strConcat (emittedDeltasFor i responses)
      = (contentsFor i responses).getLast?.getD "" := by
  have houter := chat_run_deltas i responses (fun _ => "")
  unfold emittedDeltasFor chat_delta_streamer_events
  rw [houter]
  have hch : List.Chain' (fun a b : String => a.data <+: b.data)
      ("" :: contentsFor i responses) := by
    rw [List.chain'_cons']
    exact ⟨fun y _ => List.nil_prefix, h⟩
  have hB := deltasOfContents_chain (contentsFor i responses) "" hch
  rwa [String.empty_append] at hB

theorem chat_delta_reconstruction_witness :
    strConcat (emittedDeltasFor 0
      [some { choices := some [{ index := 0, content := some "Hel" }] },
       some { choices := some [{ index := 0, content := some "Hello" }] }]) = "Hello" := by
  have h : List.Chain' (fun a b : String => a.data <+: b.data)
      (contentsFor 0 [some { choices := some [{ index := 0, content := some "Hel" }] },
        some { choices := some [{ index := 0, content := some "Hello" }] }]) := by
    show List.Chain' _ ["Hel", "Hello"]
    simp only [List.chain'_cons, List.chain'_singleton, and_true]
    decide
  exact (chat_delta_reconstruction 0 _ h).trans (by decide)

/-! ## Claim theorems: request normalization and readiness checks -/

lemma contrast_route_of_normalize_error (inference : Inference) (post : DiffPost)
    (e : RouterError) (h : contrast_normalize post = .error e) :
    contrast_route inference post = .error e := by
  unfold contrast_route
  rw [h]

/-- C4: for every diff-mode input with `function ≠ "diff-anywhere"`, the
normalizer checks, in this order with the first failure winning, (1)
`cursor_file ∈ sources`, (2) both cursors non-negative, (3) both cursors
within the designated file's length; each failure is rejected with HTTP
status 400, for every backend state (hence before any backend
interaction). -/
theorem contrast_validation_order (inference : Inference) (post : DiffPost)
    (h : post.function ≠ "diff-anywhere") :
    (post.sources.lookup post.cursor_file = none →
      contrast_route inference post
        = .error (.invalidCursorFile post.cursor_file (post.sources.map Prod.fst))
      ∧ (RouterError.invalidCursorFile post.cursor_file (post.sources.map Prod.fst)).status
          = 400)
    ∧ (∀ filetext, post.sources.lookup post.cursor_file = some filetext →
        post.cursor0 < 0 ∨ post.cursor1 < 0 →
        contrast_route inference post = .error (.negativeCursor post.cursor0 post.cursor1)
        ∧ (RouterError.negativeCursor post.cursor0 post.cursor1).status = 400)
    ∧ (∀ filetext, post.sources.lookup post.cursor_file = some filetext →
        0 ≤ post.cursor0 → 0 ≤ post.cursor1 →
        post.cursor0 > (filetext.length : Int) ∨ post.cursor1 > (filetext.length : Int) →
        contrast_route inference post
          = .error (.cursorBeyondLength post.cursor0 post.cursor1 filetext.length)
        ∧ (RouterError.cursorBeyondLength post.cursor0 post.cursor1
            filetext.length).status = 400) := by
  refine ⟨fun hl => ⟨?_, rfl⟩, fun filetext hl hneg => ⟨?_, rfl⟩,
    fun filetext hl h0 h1 hbey => ⟨?_, rfl⟩⟩
  · refine contrast_route_of_normalize_error _ _ _ ?_
    unfold contrast_normalize
    rw [if_pos (bne_iff_ne.2 h), hl]
  · refine contrast_route_of_normalize_error _ _ _ ?_
    unfold contrast_normalize
    rw [if_pos (bne_iff_ne.2 h), hl]
    dsimp only
    rw [if_pos]
    rcases hneg with hn | hn <;> simp [hn]
  · refine contrast_route_of_normalize_error _ _ _ ?_
    unfold contrast_normalize
    rw [if_pos (bne_iff_ne.2 h), hl]
    dsimp only
    rw [if_neg, if_pos]
    · rcases hbey with hb | hb <;> simp [hb]
    · simp [not_lt.2 h0, not_lt.2 h1]

theorem contrast_validation_order_witness :
    contrast_route
      { model_name := some "m1", last_error := none,
        model_dict := [("filter_caps", "x")], chat_is_available := true }
      { model := "", intent := "", function := "edit", cursor_file := "g",
        cursor0 := 0, cursor1 := 0, sources := [("f", "txt")], max_edits := 1,
        max_tokens := 50, stream := true }
      = .error (.invalidCursorFile "g" ["f"]) := by
  have h := (contrast_validation_order
    { model_name := some "m1", last_error := none,
      model_dict := [("filter_caps", "x")], chat_is_available := true }
    { model := "", intent := "", function := "edit", cursor_file := "g",
      cursor0 := 0, cursor1 := 0, sources := [("f", "txt")], max_edits := 1,
      max_tokens := 50, stream := true }
    (by decide)).1 (by decide)
  exact h.1.trans (by rfl)

/-- C7: for every diff-mode input with `function = "diff-anywhere"`,
normalization succeeds without the cursor/cursor-file validations
(unconditionally in the caller-supplied cursor values), forcing
`cursor0 = -1`, `cursor1 = -1`, `cursor_file = ""`; any canonical request
the endpoint hands to the adapter carries those sentinels. -/
theorem diff_anywhere_sentinels (post : DiffPost) (h : post.function = "diff-anywhere") :
    contrast_normalize post
      = .ok { post with cursor0 := -1, cursor1 := -1, cursor_file := "" }
    ∧ ∀ (inference : Inference) (req : DiffRequest),
        contrast_route inference post = .ok req →
        req.cursor0 = -1 ∧ req.cursor1 = -1 ∧ req.cursor_file = "" := by
  have hnorm : contrast_normalize post
      = .ok { post with cursor0 := -1, cursor1 := -1, cursor_file := "" } := by
    unfold contrast_normalize
    rw [if_neg]
    simp [h]
  refine ⟨hnorm, ?_⟩
  intro inference req hok
  unfold contrast_route at hok
  rw [hnorm] at hok
  dsimp only at hok
  rw [if_neg (by simp [h])] at hok
  cases hm : inference.model_name with
  | none => rw [hm] at hok; cases hok
  | some m =>
      rw [hm] at hok
      dsimp only at hok
      split at hok
      · cases hok
      · split at hok
        · cases hok
        · cases hok
          exact ⟨rfl, rfl, rfl⟩

theorem diff_anywhere_sentinels_witness :
    contrast_normalize
      { model := "", intent := "", function := "diff-anywhere", cursor_file := "zzz",
        cursor0 := 99, cursor1 := -7, sources := [("f", "txt")], max_edits := 1,
        max_tokens := 50, stream := true }
      = .ok { model := "", intent := "", function := "diff-anywhere", cursor_file := "",
              cursor0 := -1, cursor1 := -1, sources := [("f", "txt")], max_edits := 1,
              max_tokens := 50, stream := true } :=
  (diff_anywhere_sentinels
    { model := "", intent := "", function := "diff-anywhere", cursor_file := "zzz",
      cursor0 := 99, cursor1 := -7, sources := [("f", "txt")], max_edits := 1,
      max_tokens := 50, stream := true } rfl).1.trans (by rfl)

/-- C5 (code-bug exhibit): routers.py line 154 reads
`if not self._inference.model_dict == 0:`, which parses as
`not (model_dict == 0)`; a dict never equals an int, so the condition is
always true and `/v1/completions` rejects with UnknownModel (401) even when
the capability dictionary is non-empty. The spec (§9) calls this
numeric-comparison variant a defect; `/v1/contrast` and `/v1/chat` use the
intended emptiness test and accept the same backend state. -/
theorem completion_unknown_model_bug :
    completion_route
        { model_name := some "m1", last_error := none,
          model_dict := [("filter_caps", "x")], chat_is_available := true }
        { model := "", prompt := "hi", stream := true }
      = .error (.unknownModel "m1")
    ∧ ([("filter_caps", "x")] : List (String × String)).isEmpty = false
    ∧ (RouterError.unknownModel "m1").status = 401
    ∧ contrast_route
        { model_name := some "m1", last_error := none,
          model_dict := [("filter_caps", "x")], chat_is_available := true }
        { model := "", intent := "", function := "diff-anywhere", cursor_file := "f",
          cursor0 := 0, cursor1 := 0, sources := [("f", "txt")], max_edits := 1,
          max_tokens := 50, stream := true }
      = .ok { model := "", intent := "", sources := [("f", "txt")], cursor_file := "",
              cursor0 := -1, cursor1 := -1, function := "diff-anywhere",
              max_edits := 1, stream := true }
    ∧ chat_route
        { model_name := some "m1", last_error := none,
          model_dict := [("filter_caps", "x")], chat_is_available := true }
        { model := "", messages := [("user", "hi")] }
      = .ok { stream := true } := by
  refine ⟨rfl, rfl, rfl, rfl, rfl⟩

/-- C6 counterexample: the chat endpoint does not exempt the
`"CONTRASTcode"` wildcard (routers.py line 260 checks only
`post.model != ""`): with model `"m1"` loaded, chat available, and a
non-empty capability dictionary, a chat post naming `"CONTRASTcode"` is
rejected with ModelMismatch — the claim says a wildcard caller model never
triggers this rejection. -/
theorem chat_wildcard_rejected :
    chat_route
      { model_name := some "m1", last_error := none,
        model_dict := [("filter_caps", "x")], chat_is_available := true }
      { model := "CONTRASTcode", messages := [] }
      = .error (.modelMismatch "CONTRASTcode" "m1") := rfl

lemma contrast_normalize_model (post post' : DiffPost)
    (h : contrast_normalize post = .ok post') : post'.model = post.model := by
  unfold contrast_normalize at h
  by_cases hf : (post.function != "diff-anywhere") = true
  · rw [if_pos hf] at h
    cases hl : post.sources.lookup post.cursor_file with
    | none => rw [hl] at h; cases h
    | some ft =>
        rw [hl] at h
        dsimp only at h
        split at h
        · cases h
        · split at h
          · cases h
          · cases h; rfl
  · rw [if_neg hf] at h
    cases h; rfl

/-- C6 (amended): with a model loaded (and, for chat, chat capability
available; for diff mode, normalization succeeded), the completion and
contrast endpoints fail with ModelMismatch naming both models iff the
caller model is non-empty, unequal to the `"CONTRASTcode"` wildcard, and
unequal to the backend model; the chat endpoint recognizes no wildcard and
fails with ModelMismatch iff the caller model is non-empty and unequal to
the backend model. -/
theorem model_mismatch_characterization
    (inference : Inference) (m : String) (hm : inference.model_name = some m)
    (tpost : TextPost) (dpost dpost' : DiffPost)
    (hd : contrast_normalize dpost = .ok dpost')
    (cpost : ChatPost) (hc : inference.chat_is_available = true) :
    (completion_route inference tpost = .error (.modelMismatch tpost.model m)
      ↔ tpost.model ≠ "" ∧ tpost.model ≠ "CONTRASTcode" ∧ m ≠ tpost.model)
    ∧ (contrast_route inference dpost = .error (.modelMismatch dpost.model m)
      ↔ dpost.model ≠ "" ∧ dpost.model ≠ "CONTRASTcode" ∧ m ≠ dpost.model)
    ∧ (chat_route inference cpost = .error (.modelMismatch cpost.model m)
      ↔ cpost.model ≠ "" ∧ m ≠ cpost.model) := by
  refine ⟨?_, ?_, ?_⟩
  · unfold completion_route
    rw [hm]
    dsimp only
    by_cases hb : (tpost.model != "" && tpost.model != "CONTRASTcode" && m != tpost.model) = true
    · rw [if_pos hb]
      simp only [Bool.and_eq_true, bne_iff_ne] at hb
      exact iff_of_true rfl ⟨hb.1.1, hb.1.2, hb.2⟩
    · rw [if_neg hb]
      have hb' : ¬(tpost.model ≠ "" ∧ tpost.model ≠ "CONTRASTcode" ∧ m ≠ tpost.model) := by
        simpa [Bool.and_eq_true, bne_iff_ne, and_assoc] using hb
      refine iff_of_false ?_ hb'
      simp [pyDictEqZero]
  · have hmodel := contrast_normalize_model dpost dpost' hd
    unfold contrast_route
    rw [hd]
    dsimp only
    rw [hm]
    dsimp only
    by_cases hhl : (dpost'.function == "highlight") = true
    · rw [if_pos hhl]
      dsimp only
      rw [hmodel]
      by_cases hb : (dpost.model != "" && dpost.model != "CONTRASTcode" && m != dpost.model) = true
      · rw [if_pos hb]
        simp only [Bool.and_eq_true, bne_iff_ne] at hb
        exact iff_of_true rfl ⟨hb.1.1, hb.1.2, hb.2⟩
      · rw [if_neg hb]
        have hb' : ¬(dpost.model ≠ "" ∧ dpost.model ≠ "CONTRASTcode" ∧ m ≠ dpost.model) := by
          simpa [Bool.and_eq_true, bne_iff_ne, and_assoc] using hb
        refine iff_of_false ?_ hb'
        split <;> simp
    · rw [if_neg hhl]
      rw [hmodel]
      by_cases hb : (dpost.model != "" && dpost.model != "CONTRASTcode" && m != dpost.model) = true
      · rw [if_pos hb]
        simp only [Bool.and_eq_true, bne_iff_ne] at hb
        exact iff_of_true rfl ⟨hb.1.1, hb.1.2, hb.2⟩
      · rw [if_neg hb]
        have hb' : ¬(dpost.model ≠ "" ∧ dpost.model ≠ "CONTRASTcode" ∧ m ≠ dpost.model) := by
          simpa [Bool.and_eq_true, bne_iff_ne, and_assoc] using hb
        refine iff_of_false ?_ hb'
        split <;> simp
  · unfold chat_route
    rw [hm]
    dsimp only
    rw [if_neg (by simp [hc])]
    by_cases hb : (cpost.model != "" && m != cpost.model) = true
    · rw [if_pos hb]
      simp only [Bool.and_eq_true, bne_iff_ne] at hb
      exact iff_of_true rfl ⟨hb.1, hb.2⟩
    · rw [if_neg hb]
      have hb' : ¬(cpost.model ≠ "" ∧ m ≠ cpost.model) := by
        simpa [Bool.and_eq_true, bne_iff_ne] using hb
      refine iff_of_false ?_ hb'
      split <;> simp

theorem model_mismatch_characterization_witness :
    chat_route
      { model_name := some "m1", last_error := none,
        model_dict := [("filter_caps", "x")], chat_is_available := true }
      { model := "m2", messages := [] }
      = .error (.modelMismatch "m2" "m1") := by
  have h := (model_mismatch_characterization
    { model_name := some "m1", last_error := none,
      model_dict := [("filter_caps", "x")], chat_is_available := true }
    "m1" rfl
    { model := "", prompt := "", stream := true }
    { model := "", intent := "", function := "diff-anywhere", cursor_file := "f",
      cursor0 := 0, cursor1 := 0, sources := [("f", "txt")], max_edits := 1,
      max_tokens := 50, stream := true }
    { model := "", intent := "", function := "diff-anywhere", cursor_file := "",
      cursor0 := -1, cursor1 := -1, sources := [("f", "txt")], max_edits := 1,
      max_tokens := 50, stream := true }
    (by rfl)
    { model := "m2", messages := [] } rfl).2.2
  exact h.mpr (by refine ⟨by decide, by decide⟩)
